import Mathlib

/-!
Shallow embedding of the tiwatch package (tiwatch.go): a TiDB-backed
key-value store with per-key versions and a polling Watch loop.

The database table with columns (k, v, version) and primary key k is
modelled as a function from keys to optional rows.  Transactional write
operations (Set, Delete) are modelled with an explicit fault schedule: each
statement of the transaction may fail, and the ACID backend guarantees that
a failed transaction leaves the committed table unchanged (the Go code
pairs every error-return path with a deferred Rollback, and effects become
visible only at Commit).  One iteration of the body of the Watch goroutine
is modelled as a function of the watcher state and an oracle giving the
results of the backend calls made during that iteration, so that the
interleaving with concurrent writers is represented by the oracle answers.
-/

namespace TiWatch

/-- A live row of the table: value `v` and `version` (a BIGINT that the code
only ever sets to 0 or increments, hence non-negative). -/
structure Row where
  v : String
  version : Nat
deriving DecidableEq, Repr

/-- The table keyed by primary key `k`: at most one live row per key. -/
abbrev Table := String → Option Row

/-- The table with no rows. -/
def emptyTable : Table := fun _ => none

/-- Backend errors seen by the Go code: `sql.ErrNoRows`, or any other
transport or transaction error. -/
inductive SqlErr where
  | noRows
  | txn
deriving DecidableEq, Repr

/-- Fault schedule for one write transaction: whether each of its steps
fails (`Begin`, the `SELECT ... FOR UPDATE` lock statement, the main
statement, `Commit`). -/
structure TxnFaults where
  beginFails : Bool
  lockFails : Bool
  stmtFails : Bool
  commitFails : Bool
deriving DecidableEq, Repr

/-- The fault-free schedule: every step of the transaction succeeds. -/
def noFaults : TxnFaults := ⟨false, false, false, false⟩

/-- Committed effect of the upsert statement of `Set`:
`INSERT INTO ... (k, v, version) VALUES (?, ?, 0) ON DUPLICATE KEY UPDATE
v = VALUES(v), version = version + 1`. -/
def upsert (t : Table) (key value : String) : Table :=
  fun k =>
    if k = key then
      match t key with
      | none => some ⟨value, 0⟩
      | some r => some ⟨value, r.version + 1⟩
    else t k

/-- `Set(key, value)`: Begin; lock the row for update; run the upsert;
Commit.  Returns the committed table together with the error, if any: on a
failure at any step the deferred Rollback leaves the committed table
unchanged, and the upsert only becomes visible at Commit. -/
def Set (f : TxnFaults) (t : Table) (key value : String) :
    Table × Option SqlErr :=
  if f.beginFails then (t, some SqlErr.txn)
  else if f.lockFails then (t, some SqlErr.txn)
  else if f.stmtFails then (t, some SqlErr.txn)
  else if f.commitFails then (t, some SqlErr.txn)
  else (upsert t key value, none)

/-- Committed effect of the delete statement: `DELETE FROM ... WHERE k = ?`. -/
def delRow (t : Table) (key : String) : Table :=
  fun k => if k = key then none else t k

/-- `Delete(key)`: Begin; lock the row for update; delete the row; Commit,
with rollback on a failure at any step. -/
def Delete (f : TxnFaults) (t : Table) (key : String) :
    Table × Option SqlErr :=
  if f.beginFails then (t, some SqlErr.txn)
  else if f.lockFails then (t, some SqlErr.txn)
  else if f.stmtFails then (t, some SqlErr.txn)
  else if f.commitFails then (t, some SqlErr.txn)
  else (delRow t key, none)

/-- `Get(key)`: `SELECT v FROM ... WHERE k = ? ORDER BY version DESC LIMIT 1`.
When no row exists, `Scan` yields `sql.ErrNoRows`, which Get maps to the
triple `("", false, nil)`; with a live row it returns `(v, true, nil)`. -/
def Get (t : Table) (key : String) : String × Bool × Option SqlErr :=
  match t key with
  | none => ("", false, none)
  | some r => (r.v, true, none)

/-- `getMaxVersion(key)`: `SELECT IFNULL(MAX(version), 0) FROM ... WHERE k = ?`
evaluated on the table itself (the transport-fault case is injected by the
watch-loop oracle): 0 when the key is absent, the stored version otherwise. -/
def getMaxVersion (t : Table) (key : String) : Nat :=
  match t key with
  | none => 0
  | some r => r.version

/-- `OpType` with its two constants `TypeDelete` and `TypeUpdate`. -/
inductive OpType where
  | TypeDelete
  | TypeUpdate
deriving DecidableEq, Repr

/-- A change event `Op` with fields Type, Key, Val; a Go struct literal that
omits Val leaves it at the zero value `""`. -/
structure Op where
  type : OpType
  key : String
  val : String
deriving DecidableEq, Repr

/-- The per-process version map `b.versions`: key to tracked version, with
`none` for a key that has no entry yet.  A single map lives on the TiWatch
value and is shared by every Watch goroutine spawned from it. -/
abbrev Tracker := String → Option Nat

/-- The map write `b.versions[key] = n`. -/
def Tracker.set (tr : Tracker) (key : String) (n : Nat) : Tracker :=
  fun k => if k = key then some n else tr k

/-- The empty version map. -/
def emptyTracker : Tracker := fun _ => none

/-- Oracle for the backend calls one watch-loop iteration can make: the
`getMaxVersion` call in the uninitialised branch, the `getMaxVersion` call
fetching the remote version, and the `Get` call (value and found flag).
`getMaxVersion` returns `(0, err)` on error, so an oracle error stands for
that pair.  Concurrent writers are reflected in what the oracle answers at
each of the three observation points. -/
structure WatchEnv where
  initQ : Except SqlErr Nat
  remoteQ : Except SqlErr Nat
  getQ : Except SqlErr (String × Bool)

/-- Observable outcome of one iteration of the body of the `for` loop in the
Watch goroutine: the version map afterwards, the ops sent on the channel,
whether the iteration reached `time.Sleep(PollDuration)`, whether it called
`b.Set(key, "")`, whether it called `log.Error`, and the value of the local
`version` variable used in the comparisons. -/
structure IterOut where
  tracker : Tracker
  emitted : List Op
  slept : Bool
  didSetEmpty : Bool
  loggedErr : Bool
  usedVersion : Nat

/-- The first phase of an iteration, transcribing
`version, ok := b.versions[key]; if !ok { version, err = b.getMaxVersion(key);
if err != nil { if err == sql.ErrNoRows { b.Set(key, "") } else
{ log.Error(err) } }; b.versions[key] = version }`.  Returns the local
version, the updated map, the did-Set flag and the logged flag.  Note that
the map entry is written on every path of the uninitialised branch, the
error paths included, with the 0 that `getMaxVersion` returned alongside
the error. -/
def watchInit (env : WatchEnv) (tr : Tracker) (key : String) :
    Nat × Tracker × Bool × Bool :=
  match tr key with
  | some v => (v, tr, false, false)
  | none =>
    match env.initQ with
    | Except.ok v => (v, Tracker.set tr key v, false, false)
    | Except.error SqlErr.noRows => (0, Tracker.set tr key 0, true, false)
    | Except.error SqlErr.txn => (0, Tracker.set tr key 0, false, true)

/-- The comparison phase of one iteration, given the local `version` value
and the flags accumulated by the first phase: fetch the remote version (on
error, log and continue); if it is 0 while the local version is positive,
send a TypeDelete op, write 0 to the map and continue without sleeping; if
it is greater than the local version, call Get (on error, log and
continue), send a TypeUpdate op carrying the fetched value and write the
remote version to the map; otherwise sleep for the poll interval. -/
def watchCompare (env : WatchEnv) (tr : Tracker) (key : String)
    (version : Nat) (didSet logged : Bool) : IterOut :=
  match env.remoteQ with
  | Except.error _ => ⟨tr, [], false, didSet, true, version⟩
  | Except.ok remoteVersion =>
    if remoteVersion = 0 ∧ 0 < version then
      ⟨Tracker.set tr key 0, [⟨OpType.TypeDelete, key, ""⟩], false,
        didSet, logged, version⟩
    else if version < remoteVersion then
      match env.getQ with
      | Except.error _ => ⟨tr, [], false, didSet, true, version⟩
      | Except.ok (value, _found) =>
        ⟨Tracker.set tr key remoteVersion,
          [⟨OpType.TypeUpdate, key, value⟩], false, didSet, logged, version⟩
    else
      ⟨tr, [], true, didSet, logged, version⟩

/-- One iteration of the `for` loop inside the goroutine spawned by
`Watch(key)`. -/
def watchIter (env : WatchEnv) (tr : Tracker) (key : String) : IterOut :=
  let i := watchInit env tr key
  watchCompare env i.2.1 key i.1 i.2.2.1 i.2.2.2

/-- Capacity of the event channel: `Watch` creates it with `make(chan Op)`,
an unbuffered channel. -/
def watchChanCapacity : Nat := 0

/-- Go channel semantics: a send on a channel completes without a waiting
receiver exactly when the buffer has a free slot, i.e. when the number of
queued elements is strictly below the capacity. -/
abbrev chanSendReadyWithoutReceiver (capacity queued : Nat) : Prop :=
  queued < capacity

/-- The committed effect of a sequence of fault-free `Set(key, ·)` calls. -/
def setSeq (t : Table) (key : String) (vs : List String) : Table :=
  vs.foldl (fun acc value => upsert acc key value) t

/-- A chain of successful `Set(key, ·)` calls, each under its own fault
schedule and each returning no error, leading from table `t` to table `t2`. -/
inductive SetChain (key : String) : Table → List String → Table → Prop where
  | nil : ∀ t, SetChain key t [] t
  | cons : ∀ (f : TxnFaults) (t : Table) (value : String) (t1 : Table)
      (vs : List String) (t2 : Table),
      Set f t key value = (t1, none) →
      SetChain key t1 vs t2 →
      SetChain key t (value :: vs) t2

/-- Concrete table: after one fault-free `Set("k", "a")` on the empty table. -/
def tw1 : Table := upsert emptyTable "k" "a"

/-- Concrete table: after a further fault-free `Set("k", "b")`. -/
def tw2 : Table := upsert tw1 "k" "b"

/-- A schedule whose only failing step is Commit. -/
def fCommitFail : TxnFaults := ⟨false, false, false, true⟩

/-- Oracle for a delete-detection iteration: remote version 0. -/
def envDel : WatchEnv := ⟨Except.ok 0, Except.ok 0, Except.ok ("", false)⟩

/-- Oracle whose uninitialised query reports `sql.ErrNoRows`. -/
def envNoRows : WatchEnv :=
  ⟨Except.error SqlErr.noRows, Except.ok 0, Except.ok ("", false)⟩

/-- Oracle whose uninitialised query fails with a non-ErrNoRows error. -/
def envErr : WatchEnv :=
  ⟨Except.error SqlErr.txn, Except.ok 0, Except.ok ("", false)⟩

/-- Oracle for a first watcher: it baselines at version 5 and observes a
stable remote version 5. -/
def envA8 : WatchEnv := ⟨Except.ok 5, Except.ok 5, Except.ok ("", false)⟩

/-- Oracle for a second watcher: it would baseline at version 0 and it
observes remote version 0. -/
def envB8 : WatchEnv := ⟨Except.ok 0, Except.ok 0, Except.ok ("", false)⟩

/-- Oracle for an update-detection iteration racing a delete: remote version
5, and Get finds no row, answering `("", false, nil)`. -/
def envUpd : WatchEnv := ⟨Except.ok 0, Except.ok 5, Except.ok ("", false)⟩

/-- A version map holding entry 3 for key "k". -/
def trOne : Tracker := Tracker.set emptyTracker "k" 3

end TiWatch

theorem TiWatch.Set_ok_eq {f : TiWatch.TxnFaults} {t t1 : TiWatch.Table}
    {key value : String} (h : TiWatch.Set f t key value = (t1, none)) :
    t1 = TiWatch.upsert t key value := by
  cases hb : f.beginFails <;> cases hl : f.lockFails <;>
    cases hs : f.stmtFails <;> cases hc : f.commitFails <;>
    simp [TiWatch.Set, hb, hl, hs, hc] at h <;> exact h.symm

theorem TiWatch.Delete_ok_eq {f : TiWatch.TxnFaults} {t t1 : TiWatch.Table}
    {key : String} (h : TiWatch.Delete f t key = (t1, none)) :
    t1 = TiWatch.delRow t key := by
  cases hb : f.beginFails <;> cases hl : f.lockFails <;>
    cases hs : f.stmtFails <;> cases hc : f.commitFails <;>
    simp [TiWatch.Delete, hb, hl, hs, hc] at h <;> exact h.symm

theorem TiWatch.watchCompare_usedVersion (env : TiWatch.WatchEnv)
    (tr : TiWatch.Tracker) (key : String) (version : Nat) (d l : Bool) :
    (TiWatch.watchCompare env tr key version d l).usedVersion = version := by
  unfold TiWatch.watchCompare
  cases env.remoteQ with
  | error e => rfl
  | ok rv =>
    by_cases h1 : rv = 0 ∧ 0 < version
    · simp [h1]
    · by_cases h2 : version < rv
      · simp [h1, h2]
        cases env.getQ with
        | error e => rfl
        | ok p => cases p with | mk a b => rfl
      · simp [h1, h2]

theorem TiWatch.watchCompare_didSet (env : TiWatch.WatchEnv)
    (tr : TiWatch.Tracker) (key : String) (version : Nat) (d l : Bool) :
    (TiWatch.watchCompare env tr key version d l).didSetEmpty = d := by
  unfold TiWatch.watchCompare
  cases env.remoteQ with
  | error e => rfl
  | ok rv =>
    by_cases h1 : rv = 0 ∧ 0 < version
    · simp [h1]
    · by_cases h2 : version < rv
      · simp [h1, h2]
        cases env.getQ with
        | error e => rfl
        | ok p => cases p with | mk a b => rfl
      · simp [h1, h2]

theorem TiWatch.watchCompare_flags_indep (env : TiWatch.WatchEnv)
    (tr : TiWatch.Tracker) (key : String) (version : Nat)
    (d1 l1 d2 l2 : Bool) :
    (TiWatch.watchCompare env tr key version d1 l1).tracker =
      (TiWatch.watchCompare env tr key version d2 l2).tracker ∧
    (TiWatch.watchCompare env tr key version d1 l1).emitted =
      (TiWatch.watchCompare env tr key version d2 l2).emitted ∧
    (TiWatch.watchCompare env tr key version d1 l1).slept =
      (TiWatch.watchCompare env tr key version d2 l2).slept := by
  unfold TiWatch.watchCompare
  cases env.remoteQ with
  | error e => exact ⟨rfl, rfl, rfl⟩
  | ok rv =>
    by_cases h1 : rv = 0 ∧ 0 < version
    · simp [h1]
    · by_cases h2 : version < rv
      · simp [h1, h2]
        cases env.getQ with
        | error e => exact ⟨rfl, rfl, rfl⟩
        | ok p => cases p with | mk a b => exact ⟨rfl, rfl, rfl⟩
      · simp [h1, h2]

theorem TiWatch.watchIter_usedVersion_of_entry (env : TiWatch.WatchEnv)
    (tr : TiWatch.Tracker) (key : String) (n : Nat) (h : tr key = some n) :
    (TiWatch.watchIter env tr key).usedVersion = n := by
  simp [TiWatch.watchIter, TiWatch.watchInit, h,
    TiWatch.watchCompare_usedVersion]

theorem TiWatch.setChain_version_of_some {key : String} {t : TiWatch.Table}
    {vs : List String} {t2 : TiWatch.Table}
    (h : TiWatch.SetChain key t vs t2) :
    ∀ r : TiWatch.Row, t key = some r →
      (t2 key).map TiWatch.Row.version = some (r.version + vs.length) := by
  induction h with
  | nil t => intro r hr; simp [hr]
  | cons f t value t1 vs t2 hset _hrest ih =>
    intro r hr
    have h1 : t1 = TiWatch.upsert t key value := TiWatch.Set_ok_eq hset
    have h1k : t1 key = some ⟨value, r.version + 1⟩ := by
      subst h1; simp [TiWatch.upsert, hr]
    have := ih ⟨value, r.version + 1⟩ h1k
    rw [this]
    simp
    omega

/-- Claim C1: for every sequence of successful Set(key, v) calls on the same
key with no intervening Delete, the stored version strictly increases by
exactly 1 per call, starting at 0 on the first Set after the key was
absent.  The first conjunct gives the per-call step: a successful Set on a
live row stores exactly the old version plus 1.  The second conjunct holds
for every chain of successful calls, hence for every prefix of a longer
chain as well, and gives version n - 1 after the n-th call from absence. -/
theorem set_version_increments_by_one (key : String)
    (t t2 : TiWatch.Table) (vs : List String)
    (hch : TiWatch.SetChain key t vs t2) (h0 : t key = none)
    (hne : vs ≠ []) :
    (∀ (f : TiWatch.TxnFaults) (u u1 : TiWatch.Table) (w : String)
      (r : TiWatch.Row), u key = some r →
      TiWatch.Set f u key w = (u1, none) →
      (u1 key).map TiWatch.Row.version = some (r.version + 1)) ∧
    (t2 key).map TiWatch.Row.version = some (vs.length - 1) := by
  constructor
  · intro f u u1 w r hr hset
    have h1 : u1 = TiWatch.upsert u key w := TiWatch.Set_ok_eq hset
    subst h1
    simp [TiWatch.upsert, hr]
  · cases hch with
    | nil t => exact absurd rfl hne
    | cons f t value t1 vs' t2 hset hrest =>
      have h1 : t1 = TiWatch.upsert t key value := TiWatch.Set_ok_eq hset
      have h1k : t1 key = some ⟨value, 0⟩ := by
        subst h1; simp [TiWatch.upsert, h0]
      have hv := TiWatch.setChain_version_of_some hrest ⟨value, 0⟩ h1k
      rw [hv]
      simp

/-- Witness for claim C1, at the chain Set("k","a"); Set("k","b") run from
the empty table: the stored version afterwards is 1. -/
theorem set_version_increments_by_one_witness :
    TiWatch.emptyTable "k" = none ∧ (["a", "b"] : List String) ≠ [] ∧
    (TiWatch.tw2 "k").map TiWatch.Row.version = some 1 :=
  ⟨rfl, by simp,
    (set_version_increments_by_one "k" TiWatch.emptyTable TiWatch.tw2
      ["a", "b"]
      (TiWatch.SetChain.cons TiWatch.noFaults TiWatch.emptyTable "a"
        TiWatch.tw1 ["b"] TiWatch.tw2 rfl
        (TiWatch.SetChain.cons TiWatch.noFaults TiWatch.tw1 "b" TiWatch.tw2
          [] TiWatch.tw2 rfl (TiWatch.SetChain.nil TiWatch.tw2)))
      rfl (by simp)).2⟩

/-- Claim C2: after a successful Delete(key), the next successful
Set(key, v) stores the record with version 0: the version space restarts
rather than continuing from the pre-delete version. -/
theorem delete_resets_version (fd fs : TiWatch.TxnFaults)
    (t td t2 : TiWatch.Table) (key value : String)
    (hdel : TiWatch.Delete fd t key = (td, none))
    (hset : TiWatch.Set fs td key value = (t2, none)) :
    t2 key = some ⟨value, 0⟩ := by
  have h1 : td = TiWatch.delRow t key := TiWatch.Delete_ok_eq hdel
  have h2 : t2 = TiWatch.upsert td key value := TiWatch.Set_ok_eq hset
  subst h2
  subst h1
  simp [TiWatch.upsert, TiWatch.delRow]

/-- Witness for claim C2, deleting key "k" (stored at version 1) and then
setting it to "v2": the stored record is ("v2" at version 0). -/
theorem delete_resets_version_witness :
    TiWatch.Delete TiWatch.noFaults TiWatch.tw2 "k"
      = (TiWatch.delRow TiWatch.tw2 "k", none) ∧
    TiWatch.upsert (TiWatch.delRow TiWatch.tw2 "k") "k" "v2" "k"
      = some ⟨"v2", 0⟩ :=
  ⟨rfl,
    delete_resets_version TiWatch.noFaults TiWatch.noFaults TiWatch.tw2
      (TiWatch.delRow TiWatch.tw2 "k")
      (TiWatch.upsert (TiWatch.delRow TiWatch.tw2 "k") "k" "v2") "k" "v2"
      rfl rfl⟩

/-- Claim C6: if Set(key, value) returns an error, the stored record for the
key is unchanged (a failure at any of the four transaction steps rolls back
all effects); and there is no partial state: the only error-free outcome is
the complete upsert, which writes the new value and the incremented version
together. -/
theorem set_failure_leaves_store_unchanged (f : TiWatch.TxnFaults)
    (t : TiWatch.Table) (key value : String) :
    ((TiWatch.Set f t key value).2 ≠ none →
      (TiWatch.Set f t key value).1 = t) ∧
    ((TiWatch.Set f t key value).2 = none →
      (TiWatch.Set f t key value).1 = TiWatch.upsert t key value) := by
  cases hb : f.beginFails <;> cases hl : f.lockFails <;>
    cases hs : f.stmtFails <;> cases hc : f.commitFails <;>
    simp [TiWatch.Set, hb, hl, hs, hc]

/-- Witness for claim C6: a Set whose Commit step fails returns an error and
leaves the empty table empty. -/
theorem set_failure_leaves_store_unchanged_witness :
    (TiWatch.Set TiWatch.fCommitFail TiWatch.emptyTable "k" "v").2 ≠ none ∧
    (TiWatch.Set TiWatch.fCommitFail TiWatch.emptyTable "k" "v").1
      = TiWatch.emptyTable :=
  ⟨by decide,
    (set_failure_leaves_store_unchanged TiWatch.fCommitFail
      TiWatch.emptyTable "k" "v").1 (by decide)⟩

/-- Claim C7: for a key with no stored row, Get returns ("", false, nil):
absence is reported via found = false with no error; for a key with a live
row, Get returns its current value with found = true. -/
theorem get_absent_and_live (t : TiWatch.Table) (key : String) :
    (t key = none → TiWatch.Get t key = ("", false, none)) ∧
    (∀ r : TiWatch.Row, t key = some r →
      TiWatch.Get t key = (r.v, true, none)) := by
  constructor
  · intro h; simp [TiWatch.Get, h]
  · intro r h; simp [TiWatch.Get, h]

/-- Witness for claim C7: Get on the empty table answers ("", false, nil),
and Get on a table holding ("a" at version 0) answers ("a", true, nil). -/
theorem get_absent_and_live_witness :
    (TiWatch.emptyTable "k" = none ∧
      TiWatch.Get TiWatch.emptyTable "k" = ("", false, none)) ∧
    (TiWatch.tw1 "k" = some ⟨"a", 0⟩ ∧
      TiWatch.Get TiWatch.tw1 "k" = ("a", true, none)) :=
  ⟨⟨rfl, (get_absent_and_live TiWatch.emptyTable "k").1 rfl⟩,
    ⟨by decide, (get_absent_and_live TiWatch.tw1 "k").2 ⟨"a", 0⟩ (by decide)⟩⟩

theorem TiWatch.watchCompare_logged_true (env : TiWatch.WatchEnv)
    (tr : TiWatch.Tracker) (key : String) (version : Nat) (d : Bool) :
    (TiWatch.watchCompare env tr key version d true).loggedErr = true := by
  unfold TiWatch.watchCompare
  cases env.remoteQ with
  | error e => rfl
  | ok rv =>
    by_cases h1 : rv = 0 ∧ 0 < version
    · simp [h1]
    · by_cases h2 : version < rv
      · simp [h1, h2]
        cases env.getQ with
        | error e => rfl
        | ok p => cases p with | mk a b => rfl
      · simp [h1, h2]

/-- Claim C3: in every watch-loop iteration where the fetched remote version
is 0 and the locally tracked version is positive, the loop emits exactly
one Op with Type TypeDelete and the watched key, writes 0 to its tracked
version, and re-enters the comparison immediately: it does not reach the
poll-interval sleep. -/
theorem watch_emits_delete_without_sleep (env : TiWatch.WatchEnv)
    (tr : TiWatch.Tracker) (key : String) (v : Nat)
    (htr : tr key = some v) (hv : 0 < v)
    (hq : env.remoteQ = Except.ok 0) :
    (TiWatch.watchIter env tr key).emitted
      = [⟨TiWatch.OpType.TypeDelete, key, ""⟩] ∧
    (TiWatch.watchIter env tr key).tracker key = some 0 ∧
    (TiWatch.watchIter env tr key).slept = false := by
  simp [TiWatch.watchIter, TiWatch.watchInit, htr, TiWatch.watchCompare, hq,
    hv, TiWatch.Tracker.set]

/-- Witness for claim C3: a tracked version 3 and a fetched remote version 0
produce exactly one delete op, a zero tracker entry and no sleep. -/
theorem watch_emits_delete_without_sleep_witness :
    TiWatch.trOne "k" = some 3 ∧
    ((TiWatch.watchIter TiWatch.envDel TiWatch.trOne "k").emitted
        = [⟨TiWatch.OpType.TypeDelete, "k", ""⟩] ∧
      (TiWatch.watchIter TiWatch.envDel TiWatch.trOne "k").tracker "k"
        = some 0 ∧
      (TiWatch.watchIter TiWatch.envDel TiWatch.trOne "k").slept = false) :=
  ⟨by decide,
    watch_emits_delete_without_sleep TiWatch.envDel TiWatch.trOne "k" 3
      (by decide) (by decide) rfl⟩

/-- Claim C4: when the first getMaxVersion query of an uninitialised
watch-loop iteration reports sql.ErrNoRows, the loop calls Set(key, "") to
materialize the key (which, the key being absent, stores version 0) and
proceeds through the rest of the iteration exactly as if the fetched
version were that 0 baseline, which it also stores as its tracker entry. -/
theorem watch_norows_materializes_baseline (env : TiWatch.WatchEnv)
    (tr : TiWatch.Tracker) (key : String)
    (h0 : tr key = none)
    (hq : env.initQ = Except.error TiWatch.SqlErr.noRows) :
    (TiWatch.watchIter env tr key).didSetEmpty = true ∧
    (TiWatch.watchIter env tr key).usedVersion = 0 ∧
    (TiWatch.watchIter env tr key).tracker
      = (TiWatch.watchIter env (TiWatch.Tracker.set tr key 0) key).tracker ∧
    (TiWatch.watchIter env tr key).emitted
      = (TiWatch.watchIter env (TiWatch.Tracker.set tr key 0) key).emitted ∧
    (TiWatch.watchIter env tr key).slept
      = (TiWatch.watchIter env (TiWatch.Tracker.set tr key 0) key).slept ∧
    (∀ t : TiWatch.Table, t key = none →
      (TiWatch.Set TiWatch.noFaults t key "").1 key = some ⟨"", 0⟩) := by
  have hL : TiWatch.watchIter env tr key
      = TiWatch.watchCompare env (TiWatch.Tracker.set tr key 0) key 0
          true false := by
    simp [TiWatch.watchIter, TiWatch.watchInit, h0, hq]
  have hR : TiWatch.watchIter env (TiWatch.Tracker.set tr key 0) key
      = TiWatch.watchCompare env (TiWatch.Tracker.set tr key 0) key 0
          false false := by
    simp [TiWatch.watchIter, TiWatch.watchInit, TiWatch.Tracker.set]
  have hind := TiWatch.watchCompare_flags_indep env
    (TiWatch.Tracker.set tr key 0) key 0 true false false false
  refine ⟨?_, ?_, ?_, ?_, ?_, ?_⟩
  · rw [hL]; exact TiWatch.watchCompare_didSet env _ key 0 true false
  · rw [hL]; exact TiWatch.watchCompare_usedVersion env _ key 0 true false
  · rw [hL, hR]; exact hind.1
  · rw [hL, hR]; exact hind.2.1
  · rw [hL, hR]; exact hind.2.2
  · intro t ht
    simp [TiWatch.Set, TiWatch.noFaults, TiWatch.upsert, ht]

/-- Witness for claim C4: from the empty version map, an ErrNoRows answer
makes the iteration call Set(key, ""). -/
theorem watch_norows_materializes_baseline_witness :
    TiWatch.emptyTracker "k" = none ∧
    (TiWatch.watchIter TiWatch.envNoRows
      TiWatch.emptyTracker "k").didSetEmpty = true :=
  ⟨rfl,
    (watch_norows_materializes_baseline TiWatch.envNoRows TiWatch.emptyTracker
      "k" rfl rfl).1⟩

/-- Claim C5 counterexample: the claim says that when the first getMaxVersion
query of an uninitialised iteration fails with an error other than
sql.ErrNoRows, no Version Tracker entry for the key is created by that
failed iteration; but the code runs b.versions[key] = version on that path
too, with the 0 that getMaxVersion returned alongside the error, so at the
concrete input (empty map, key "k", a non-ErrNoRows failure) the entry
exists afterwards and holds 0. -/
theorem watch_error_no_entry_counterexample :
    (TiWatch.watchIter TiWatch.envErr TiWatch.emptyTracker "k").tracker "k"
      = some 0 ∧
    ¬ (TiWatch.watchIter TiWatch.envErr TiWatch.emptyTracker "k").tracker "k"
      = none := by
  constructor
  · decide
  · decide

/-- Claim C5 amended: when an uninitialised watch-loop iteration has its
first getMaxVersion query fail with an error other than sql.ErrNoRows, the
loop logs the error and does not call Set, but it does establish a
baseline: it stores 0 (the value getMaxVersion returned alongside the
error) as the tracker entry for the key and proceeds through the rest of
the iteration exactly as if its tracked version were 0. -/
theorem watch_error_sets_zero_baseline (env : TiWatch.WatchEnv)
    (tr : TiWatch.Tracker) (key : String)
    (h0 : tr key = none)
    (hq : env.initQ = Except.error TiWatch.SqlErr.txn) :
    (TiWatch.watchIter env tr key).loggedErr = true ∧
    (TiWatch.watchIter env tr key).didSetEmpty = false ∧
    (TiWatch.watchIter env tr key).usedVersion = 0 ∧
    (TiWatch.watchIter env tr key).tracker
      = (TiWatch.watchIter env (TiWatch.Tracker.set tr key 0) key).tracker ∧
    (TiWatch.watchIter env tr key).emitted
      = (TiWatch.watchIter env (TiWatch.Tracker.set tr key 0) key).emitted ∧
    (TiWatch.watchIter env tr key).slept
      = (TiWatch.watchIter env (TiWatch.Tracker.set tr key 0) key).slept := by
  have hL : TiWatch.watchIter env tr key
      = TiWatch.watchCompare env (TiWatch.Tracker.set tr key 0) key 0
          false true := by
    simp [TiWatch.watchIter, TiWatch.watchInit, h0, hq]
  have hR : TiWatch.watchIter env (TiWatch.Tracker.set tr key 0) key
      = TiWatch.watchCompare env (TiWatch.Tracker.set tr key 0) key 0
          false false := by
    simp [TiWatch.watchIter, TiWatch.watchInit, TiWatch.Tracker.set]
  have hind := TiWatch.watchCompare_flags_indep env
    (TiWatch.Tracker.set tr key 0) key 0 false true false false
  refine ⟨?_, ?_, ?_, ?_, ?_, ?_⟩
  · rw [hL]; exact TiWatch.watchCompare_logged_true env _ key 0 false
  · rw [hL]; exact TiWatch.watchCompare_didSet env _ key 0 false true
  · rw [hL]; exact TiWatch.watchCompare_usedVersion env _ key 0 false true
  · rw [hL, hR]; exact hind.1
  · rw [hL, hR]; exact hind.2.1
  · rw [hL, hR]; exact hind.2.2

/-- Witness for the amended claim C5: from the empty version map, a
non-ErrNoRows failure of the first query logs and does not call Set. -/
theorem watch_error_sets_zero_baseline_witness :
    TiWatch.emptyTracker "k" = none ∧
    ((TiWatch.watchIter TiWatch.envErr TiWatch.emptyTracker "k").loggedErr
        = true ∧
      (TiWatch.watchIter TiWatch.envErr TiWatch.emptyTracker "k").didSetEmpty
        = false) :=
  ⟨rfl,
    ⟨(watch_error_sets_zero_baseline TiWatch.envErr TiWatch.emptyTracker "k"
        rfl rfl).1,
      (watch_error_sets_zero_baseline TiWatch.envErr TiWatch.emptyTracker "k"
        rfl rfl).2.1⟩⟩

/-- Claim C8 counterexample: the claim says the last-delivered-version
cursors of two Watch calls on the same key are independent state, neither
loop reading or writing the cursor of the other; but the code keeps one
b.versions map per TiWatch value, shared by every Watch goroutine.
Concretely: watcher B run from the untouched map emits nothing, yet run
after one iteration of watcher A (which wrote 5 into the shared entry) it
reads that entry and emits a TypeDelete op, so its behaviour depends on the
cursor state A wrote. -/
theorem watch_cursor_shared_counterexample :
    (TiWatch.watchIter TiWatch.envB8
        ((TiWatch.watchIter TiWatch.envA8 TiWatch.emptyTracker "k").tracker)
        "k").emitted
      ≠ (TiWatch.watchIter TiWatch.envB8 TiWatch.emptyTracker "k").emitted := by
  decide

/-- Claim C8 amended: Watch subscriptions do not own independent cursors:
all Watch loops of one TiWatch value share the single versions map, so two
subscriptions on the same key share one cursor entry.  Whenever an
iteration of watcher A leaves version n in the shared entry for the key,
the next iteration of watcher B reads n as its local baseline version. -/
theorem watch_cursor_shared_between_watchers (envA envB : TiWatch.WatchEnv)
    (tr : TiWatch.Tracker) (key : String) (n : Nat)
    (h : (TiWatch.watchIter envA tr key).tracker key = some n) :
    (TiWatch.watchIter envB
      ((TiWatch.watchIter envA tr key).tracker) key).usedVersion = n :=
  TiWatch.watchIter_usedVersion_of_entry envB _ key n h

/-- Witness for the amended claim C8: watcher A baselines at 5 and leaves 5
in the shared entry; watcher B then uses 5 as its local version. -/
theorem watch_cursor_shared_between_watchers_witness :
    (TiWatch.watchIter TiWatch.envA8 TiWatch.emptyTracker "k").tracker "k"
      = some 5 ∧
    (TiWatch.watchIter TiWatch.envB8
      ((TiWatch.watchIter TiWatch.envA8 TiWatch.emptyTracker "k").tracker)
      "k").usedVersion = 5 :=
  ⟨by decide,
    watch_cursor_shared_between_watchers TiWatch.envA8 TiWatch.envB8
      TiWatch.emptyTracker "k" 5 (by decide)⟩

/-- Claim C9 counterexample: the claim says the Watch loop can always
enqueue a detected Op without waiting on the consumer, for any number of
undelivered events; but Watch creates its channel with make(chan Op),
capacity 0, so already with zero queued elements a send cannot complete
without a waiting receiver. -/
theorem event_channel_unbuffered_counterexample :
    ¬ TiWatch.chanSendReadyWithoutReceiver TiWatch.watchChanCapacity 0 := by
  simp [TiWatch.watchChanCapacity]

/-- Claim C9 amended: the event channel returned by Watch(key) is an
unbuffered channel (capacity 0), not an unbounded conduit: whatever the
number of queued elements, a send never completes without a waiting
receiver, so the Watch loop blocks on each emitted Op until the consumer
receives it. -/
theorem event_channel_send_blocks (queued : Nat) :
    ¬ TiWatch.chanSendReadyWithoutReceiver TiWatch.watchChanCapacity
        queued := by
  simp [TiWatch.watchChanCapacity]

/-- Claim C10: in an iteration where the fetched remote version r is greater
than the tracked local version but the Get call reports the key absent with
no error (the row was deleted between the two backend calls, and Get maps
an absent row to ("", false, nil)), the loop still emits exactly one
TypeUpdate op with the empty value, not a TypeDelete, advances the tracker
entry to r, and does not sleep. -/
theorem watch_update_on_deleted_row (env : TiWatch.WatchEnv)
    (tr : TiWatch.Tracker) (key : String) (v r : Nat)
    (htr : tr key = some v) (hq : env.remoteQ = Except.ok r) (hvr : v < r)
    (hg : env.getQ = Except.ok ("", false)) :
    (TiWatch.watchIter env tr key).emitted
      = [⟨TiWatch.OpType.TypeUpdate, key, ""⟩] ∧
    (TiWatch.watchIter env tr key).tracker key = some r ∧
    (TiWatch.watchIter env tr key).slept = false ∧
    (∀ t : TiWatch.Table, t key = none →
      TiWatch.Get t key = ("", false, none)) := by
  have hne : ¬ (r = 0 ∧ 0 < v) := by omega
  have hiter : TiWatch.watchIter env tr key
      = TiWatch.watchCompare env tr key v false false := by
    simp [TiWatch.watchIter, TiWatch.watchInit, htr]
  refine ⟨?_, ?_, ?_, fun t ht => by simp [TiWatch.Get, ht]⟩ <;>
    rw [hiter] <;>
    simp [TiWatch.watchCompare, hq, hne, hvr, hg, TiWatch.Tracker.set]

/-- Witness for claim C10: tracked version 3, remote version 5, Get finding
no row: the iteration emits an update op with the empty value and advances
the entry to 5. -/
theorem watch_update_on_deleted_row_witness :
    TiWatch.trOne "k" = some 3 ∧
    ((TiWatch.watchIter TiWatch.envUpd TiWatch.trOne "k").emitted
        = [⟨TiWatch.OpType.TypeUpdate, "k", ""⟩] ∧
      (TiWatch.watchIter TiWatch.envUpd TiWatch.trOne "k").tracker "k"
        = some 5) :=
  ⟨by decide,
    ⟨(watch_update_on_deleted_row TiWatch.envUpd TiWatch.trOne "k" 3 5
        (by decide) rfl (by decide) rfl).1,
      (watch_update_on_deleted_row TiWatch.envUpd TiWatch.trOne "k" 3 5
        (by decide) rfl (by decide) rfl).2.1⟩⟩
